import Mathlib

/-!
Verification development for the Billboard chart scraper `billboardNYE.py`.

The Python source is shallowly embedded: every function below models a
specific construct of `billboardNYE.py` (noted in its doc comment).  Text is
modelled at ASCII level (the regexes `\d`, `\s` and `int()` accept some
further Unicode in CPython; all chart data handled by the program is ASCII,
and every concrete input used in a theorem below is ASCII).
-/

/-- Value of an ASCII decimal digit character, `none` for anything else.
Models the character class `[0-9]` / `\d` of the regexes in the source. -/
def charToDigit? (c : Char) : Option Nat :=
  if c = '0' then some 0
  else if c = '1' then some 1
  else if c = '2' then some 2
  else if c = '3' then some 3
  else if c = '4' then some 4
  else if c = '5' then some 5
  else if c = '6' then some 6
  else if c = '7' then some 7
  else if c = '8' then some 8
  else if c = '9' then some 9
  else none

/-- The ASCII digit character for a value below ten (junk otherwise). -/
def digitChar (k : Nat) : Char :=
  if k = 0 then '0'
  else if k = 1 then '1'
  else if k = 2 then '2'
  else if k = 3 then '3'
  else if k = 4 then '4'
  else if k = 5 then '5'
  else if k = 6 then '6'
  else if k = 7 then '7'
  else if k = 8 then '8'
  else if k = 9 then '9'
  else '*'

/-- Two ASCII digit characters read as a two-digit number. -/
def d2? (x y : Char) : Option Nat :=
  match charToDigit? x, charToDigit? y with
  | some a, some b => some (10 * a + b)
  | _, _ => none

/-- Four ASCII digit characters read as a four-digit number. -/
def d4? (x y z w : Char) : Option Nat :=
  match charToDigit? x, charToDigit? y, charToDigit? z, charToDigit? w with
  | some a, some b, some c, some d => some (1000 * a + 100 * b + 10 * c + d)
  | _, _, _, _ => none

/-- ASCII whitespace as stripped by Python `str.strip()` and matched by
the regex class `\s` (restricted to ASCII). -/
def isSpaceChar (c : Char) : Bool :=
  c = ' ' || c = '\t' || c = '\n' || c = '\x0d' || c = '\x0b' || c = '\x0c'

/-- Strip whitespace from both ends of a character list. -/
def trimChars (l : List Char) : List Char :=
  ((l.dropWhile isSpaceChar).reverse.dropWhile isSpaceChar).reverse

/-- Model of Python `str.strip()` (ASCII whitespace). -/
def trimS (s : String) : String := ⟨trimChars s.toList⟩

/-- ASCII lower-casing of one character (model of `str.lower()` /
the `re.IGNORECASE` flag used by `strptime`). -/
def charLower (c : Char) : Char :=
  if c = 'A' then 'a' else if c = 'B' then 'b' else if c = 'C' then 'c'
  else if c = 'D' then 'd' else if c = 'E' then 'e' else if c = 'F' then 'f'
  else if c = 'G' then 'g' else if c = 'H' then 'h' else if c = 'I' then 'i'
  else if c = 'J' then 'j' else if c = 'K' then 'k' else if c = 'L' then 'l'
  else if c = 'M' then 'm' else if c = 'N' then 'n' else if c = 'O' then 'o'
  else if c = 'P' then 'p' else if c = 'Q' then 'q' else if c = 'R' then 'r'
  else if c = 'S' then 's' else if c = 'T' then 't' else if c = 'U' then 'u'
  else if c = 'V' then 'v' else if c = 'W' then 'w' else if c = 'X' then 'x'
  else if c = 'Y' then 'y' else if c = 'Z' then 'z' else c

/-- Model of Python `str.lower()` (ASCII). -/
def strLower (s : String) : String := ⟨s.toList.map charLower⟩

/-- Digit run of a Python integer literal with PEP-515 underscores:
after the first digit, single underscores may separate digit groups.
`pu` records whether the previous character was an underscore. -/
def digitsGo (acc : Nat) (pu : Bool) : List Char → Option Nat
  | [] => if pu then none else some acc
  | c :: rest =>
    if c = '_' then
      if pu then none else digitsGo acc true rest
    else
      match charToDigit? c with
      | some d => digitsGo (acc * 10 + d) false rest
      | none => none

/-- Nonempty digit run (first character must be a digit). -/
def digitsUnder (l : List Char) : Option Nat :=
  match l with
  | [] => none
  | c :: rest =>
    match charToDigit? c with
    | some d => digitsGo d false rest
    | none => none

/-- Model of Python `int(str)`: optional surrounding whitespace, optional
sign, then a digit run with optional single underscores between digits. -/
def pyIntL (l : List Char) : Option Int :=
  match trimChars l with
  | [] => none
  | c :: rest =>
    if c = '+' then (digitsUnder rest).map Int.ofNat
    else if c = '-' then (digitsUnder rest).map (fun n => -(n : Int))
    else (digitsUnder (c :: rest)).map Int.ofNat

/-- Model of Python `int(str)` on a `String`. -/
def pyIntS (s : String) : Option Int := pyIntL s.toList

/-- Model of Python `str.split(sep)` for a one-character separator
(splits on every occurrence, keeping empty pieces). -/
def splitChar (sep : Char) : List Char → List (List Char)
  | [] => [[]]
  | c :: cs =>
    let r := splitChar sep cs
    if c = sep then [] :: r
    else
      match r with
      | h :: t => (c :: h) :: t
      | [] => [[c]]

/-- Truthiness of the source's `self.date` (an optional string):
`None` and the empty string are falsy. -/
def pyTruthyO : Option String → Bool
  | none => false
  | some s => s ≠ ""


/-! ### Calendar arithmetic (model of `datetime`'s validity checks) -/

/-- Gregorian leap-year rule, as implemented by `datetime`. -/
def isLeap (y : Nat) : Bool :=
  (y % 4 = 0 && y % 100 ≠ 0) || y % 400 = 0

/-- Days in a month, as checked by the `datetime` constructors. -/
def daysInMonth (y m : Nat) : Nat :=
  if m = 2 then (if isLeap y then 29 else 28)
  else if m = 4 ∨ m = 6 ∨ m = 9 ∨ m = 11 then 30
  else 31

/-- A real calendar date acceptable to `datetime.date` / `datetime.datetime`
(year between `MINYEAR = 1` and `MAXYEAR = 9999`). -/
def RealYMD (y m d : Nat) : Prop :=
  1 ≤ y ∧ y ≤ 9999 ∧ 1 ≤ m ∧ m ≤ 12 ∧ 1 ≤ d ∧ d ≤ daysInMonth y m

instance (y m d : Nat) : Decidable (RealYMD y m d) := by
  unfold RealYMD; infer_instance

/-- The zero-padded `YYYY-MM-DD` rendering of a date, as produced by
`str(datetime.date(y, m, d))` (isoformat). -/
def pyDateStr (y m d : Nat) : String :=
  ⟨[digitChar (y / 1000 % 10), digitChar (y / 100 % 10),
    digitChar (y / 10 % 10), digitChar (y % 10), '-',
    digitChar (m / 10 % 10), digitChar (m % 10), '-',
    digitChar (d / 10 % 10), digitChar (d % 10)]⟩

/-- Model of `datetime.strftime("%Y-%m-%d")` on the parse result of a date:
`%m`/`%d` are zero-padded to two digits; `%Y` is the plain decimal year
(glibc does not pad `%Y`; all years arising here have four digits). -/
def fmtYMD (y m d : Nat) : String :=
  toString y ++ "-" ++ ⟨[digitChar (m / 10 % 10), digitChar (m % 10)]⟩
    ++ "-" ++ ⟨[digitChar (d / 10 % 10), digitChar (d % 10)]⟩

/-- Model of `re.match("\d{4}-\d{2}-\d{2}", s)`: the *front* of the string
has the shape `dddd-dd-dd` (the pattern is unanchored at the right, so any
tail is allowed). -/
def ymdShapeFront (s : String) : Bool :=
  match s.toList with
  | a :: b :: c :: d :: k1 :: e :: f :: k2 :: g :: h :: _ =>
    (d4? a b c d).isSome && k1 = '-' && (d2? e f).isSome && k2 = '-' && (d2? g h).isSome
  | _ => false

/-- Model of `datetime.datetime.strptime(s, "%Y-%m-%d")`.

CPython compiles the format to the regex
`(?P<Y>\d\d\d\d)-(?P<m>1[0-2]|0[1-9]|[1-9])-(?P<d>3[01]|[12]\d|0[1-9]|[1-9])`,
requires the match to consume the whole string ("unconverted data remains"
otherwise), and then validates the triple through `datetime`.  On a string
whose tenth character is followed by anything, or whose month/day field has
a one-digit match, the remaining character is a digit or the trailing text
is nonempty, so the overall match fails; hence success requires exactly ten
characters of shape `dddd-dd-dd` with a two-digit month in `01..12`, a
two-digit day in `01..31`, and a `datetime`-valid triple. -/
def pyYMDstrictL (l : List Char) : Option (Nat × Nat × Nat) :=
  match l with
  | [a, b, c, d, k1, e, f, k2, g, h] =>
    if k1 = '-' ∧ k2 = '-' then
      match d4? a b c d, d2? e f, d2? g h with
      | some y, some mo, some dy =>
        if 1 ≤ mo ∧ mo ≤ 12 ∧ 1 ≤ dy ∧ dy ≤ 31 ∧ 1 ≤ y ∧ dy ≤ daysInMonth y mo
        then some (y, mo, dy) else none
      | _, _, _ => none
    else none
  | _ => none

/-- String wrapper of `pyYMDstrictL`. -/
def pyYMDstrict (s : String) : Option (Nat × Nat × Nat) :=
  pyYMDstrictL s.toList


/-! ### `strptime(s, "%B %d, %Y")` — the chart-page date label parse -/

/-- English month names (lower-cased), as matched by `%B`. -/
def monthLookup : List (String × Nat) :=
  [("january", 1), ("february", 2), ("march", 3), ("april", 4),
   ("may", 5), ("june", 6), ("july", 7), ("august", 8),
   ("september", 9), ("october", 10), ("november", 11), ("december", 12)]

/-- If `p` is the front of `l`, return the remainder. -/
def stripFront : List Char → List Char → Option (List Char)
  | [], l => some l
  | _ :: _, [] => none
  | p :: ps, c :: cs => if p = c then stripFront ps cs else none

/-- Match one of the month names at the front of (lower-cased) `l`.
No English month name is a prefix of another, so at most one alternative
of the compiled `%B` regex can match. -/
def monthFind (l : List Char) : Option (Nat × List Char) :=
  go monthLookup
where
  go : List (String × Nat) → Option (Nat × List Char)
    | [] => none
    | (nm, k) :: rest =>
      match stripFront nm.toList l with
      | some r => some (k, r)
      | none => go rest

/-- `\s+`: at least one whitespace character, maximal munch. -/
def wsPlus (l : List Char) : Option (List Char) :=
  match l with
  | c :: rest => if isSpaceChar c then some (rest.dropWhile isSpaceChar) else none
  | [] => none

/-- `%d` followed by the literal comma of the format `"%B %d, %Y"`.
The compiled `%d` pattern is `3[01]|[12]\d|0[1-9]|[1-9]` (two-digit
alternatives first).  A two-digit match is kept only if a comma follows;
the one-digit fallback needs the very next character to be the comma, which
is impossible when that character is a digit — so the regex's backtracking
collapses to the cases below. -/
def dayComma : List Char → Option (Nat × List Char)
  | a :: b :: rest =>
    match charToDigit? a, charToDigit? b with
    | some da, some db =>
      let v := 10 * da + db
      if 1 ≤ v ∧ v ≤ 31 then
        match rest with
        | c :: r2 => if c = ',' then some (v, r2) else none
        | [] => none
      else none
    | some da, none => if 1 ≤ da ∧ b = ',' then some (da, rest) else none
    | none, _ => none
  | _ => none

/-- Model of `datetime.datetime.strptime(s, "%B %d, %Y")` followed by the
`datetime` validity check, returning `(year, month, day)`.  The match is
case-insensitive and must consume the whole string. -/
def strptimeBD (s : String) : Option (Nat × Nat × Nat) :=
  let l := s.toList.map charLower
  match monthFind l with
  | none => none
  | some (m, r1) =>
    match wsPlus r1 with
    | none => none
    | some r2 =>
      match dayComma r2 with
      | none => none
      | some (dy, r3) =>
        match wsPlus r3 with
        | none => none
        | some r4 =>
          match r4 with
          | [a, b, c, d] =>
            match d4? a b c d with
            | none => none
            | some y =>
              if 1 ≤ y ∧ dy ≤ daysInMonth y m then some (y, m, dy) else none
          | _ => none


/-! ### Weekly date validation (`ChartData.__init__`, lines 138–144) -/

/-- Validity of a positional argument list for `datetime.datetime(*args)`:
`datetime(year, month, day[, hour[, minute[, second[, microsecond]]]])`.
Fewer than three or more than eight positional arguments raise `TypeError`;
an eighth positional argument would be `tzinfo`, where an `int` also raises
`TypeError`.  All errors are caught alike by the source's bare `except`. -/
def datetimeArgsValid (args : List Int) : Bool :=
  match args with
  | y :: mo :: d :: rest =>
    (1 ≤ y && y ≤ 9999 && 1 ≤ mo && mo ≤ 12 && 1 ≤ d &&
     d ≤ (daysInMonth y.toNat mo.toNat : Int)) && timeArgsValid rest
  | _ => false
where
  timeArgsValid : List Int → Bool
    | [] => true
    | [h] => 0 ≤ h && h ≤ 23
    | [h, mi] => 0 ≤ h && h ≤ 23 && 0 ≤ mi && mi ≤ 59
    | [h, mi, se] => 0 ≤ h && h ≤ 23 && 0 ≤ mi && mi ≤ 59 && 0 ≤ se && se ≤ 59
    | [h, mi, se, us] => 0 ≤ h && h ≤ 23 && 0 ≤ mi && mi ≤ 59 && 0 ≤ se && se ≤ 59 &&
        0 ≤ us && us ≤ 999999
    | _ => false

/-- Model of the date validation in `ChartData.__init__` (billboardNYE.py
lines 138–144): `re.match("\d{4}-\d{2}-\d{2}", str(date))` first, then
`datetime.datetime(*(int(x) for x in str(date).split("-")))` under a bare
`except`.  Returns `.ok ()` when construction proceeds, `.error` for the
`ValueError`s raised. -/
def validateWeeklyDate (date : Option String) : Except String Unit :=
  match date with
  | none => .ok ()
  | some s =>
    if ymdShapeFront s then
      match (splitChar '-' s.toList).mapM pyIntL with
      | some args => if datetimeArgsValid args then .ok () else .error "Date argument is invalid"
      | none => .error "Date argument is invalid"
    else .error "Date argument is not in YYYY-MM-DD format"

deriving instance DecidableEq for Except


/-! ### Data model: entries, documents, chart state -/

/-- Model of the `ChartEntry` object (weekly charts, both layouts). -/
structure ChartEntry where
  title : String
  artist : String
  image : Option String
  peakPos : Option Int
  lastPos : Option Int
  weeks : Option Int
  rank : Int
  isNew : Bool
deriving DecidableEq, Repr

/-- A Python attribute value (the shapes stored by the two entry classes). -/
inductive PyVal where
  | str (s : String)
  | int (n : Int)
  | bool (b : Bool)
  | pyNone
deriving DecidableEq, Repr

/-- An entry object held in `self.entries`: either a full `ChartEntry`
(weekly parsing) or a `YearEndChartEntry`, whose `__init__` sets only
`title`, `artist` and `rank` (billboardNYE.py lines 414–417). -/
inductive PyEntryObj where
  | weekly (e : ChartEntry)
  | yearEnd (title artist : String) (rank : Int)
deriving DecidableEq, Repr

def optStrVal : Option String → PyVal
  | some s => .str s
  | none => .pyNone

def optIntVal : Option Int → PyVal
  | some n => .int n
  | none => .pyNone

/-- Python attribute lookup on an entry object (its instance `__dict__`):
`none` means the attribute does not exist (`AttributeError`), which is
different from an attribute bound to Python `None` (`some .pyNone`). -/
def pyGetAttr : PyEntryObj → String → Option PyVal
  | .weekly e, f =>
    if f = "title" then some (.str e.title)
    else if f = "artist" then some (.str e.artist)
    else if f = "image" then some (optStrVal e.image)
    else if f = "peakPos" then some (optIntVal e.peakPos)
    else if f = "lastPos" then some (optIntVal e.lastPos)
    else if f = "weeks" then some (optIntVal e.weeks)
    else if f = "rank" then some (.int e.rank)
    else if f = "isNew" then some (.bool e.isNew)
    else none
  | .yearEnd t a r, f =>
    if f = "title" then some (.str t)
    else if f = "artist" then some (.str a)
    else if f = "rank" then some (.int r)
    else none

/-- The `img.chart-list-item__image` element of an old-style entry:
its `data-src` (lazy-load) and `src` attributes. -/
structure ImageSoup where
  dSrc : Option String
  src : Option String
deriving DecidableEq, Repr

/-- One `div.chart-list-item__ministats-cell` element: the text of its
heading span (`none` when the span is missing or has no string), and the
cell's own text. -/
structure MinistatCell where
  heading : Option String
  text : String
deriving DecidableEq, Repr

/-- One `div.chart-list-item` element of an old-style page: the data
attributes and sub-elements read by `_parseOldStylePage`. -/
structure OldEntrySoup where
  dataTitle : Option String
  dataArtist : Option String
  image : Option ImageSoup
  dataRank : Option String
  ministats : List MinistatCell
deriving DecidableEq, Repr

/-- One `li.chart-list__element` element of a new-style page: the texts of
the spans read by `_parseNewStylePage`, and the `chart-element__meta`
spans keyed by their `text--<attr>` class (value = the span's string, or
`none` when the span has no string). -/
structure NewEntrySoup where
  song : Option String
  artist : Option String
  rank : Option String
  metas : List (String × Option String)
deriving DecidableEq, Repr

/-- A fetched weekly chart document, reduced to the elements the parser
queries: the `meta[name="title"]` content, the two date-button texts, the
previous/next chevron link targets, the `table` elements (layout marker),
and the entry elements of both layouts. -/
structure Document where
  titleMeta : Option String
  oldDateElement : Option String
  newDateElement : Option String
  prevHref : Option String
  nextHref : Option String
  tables : List Unit
  oldEntries : List OldEntrySoup
  newEntries : List NewEntrySoup
deriving DecidableEq, Repr

/-- The mutable state of a `ChartData` object: `name`, `title`, `date`,
`previousDate`, `nextDate` (absent unless assigned — modelled as an
`Option`) and `entries`. -/
structure ChartState where
  name : String
  title : String
  date : Option String
  previousDate : Option String
  nextDate : Option String
  entries : List PyEntryObj
deriving DecidableEq, Repr

/-- The state right after `ChartData.__init__` sets its plain fields
(before any fetch): `title = ""`, `previousDate = None`, no `nextDate`,
empty entries. -/
def initState (name : String) (date : Option String) : ChartState :=
  ⟨name, "", date, none, none, []⟩

/-! ### Old-style entry parsing (`_parseOldStylePage`, lines 206–270) -/

/-- Non-breaking space: ministats cell text is split on `u"\xa0"`. -/
def nbspChar : Char := '\xa0'

/-- `ministat.text.split(u"\xa0")[0]`: the cell text before the first
non-breaking space. -/
def cellFrontText (t : String) : String :=
  ⟨t.toList.takeWhile (fun c => c ≠ nbspChar)⟩

/-- Model of the local helper `getMinistatsCellValue(fieldName, ifNoValue)`
(lines 242–257): scan the ministats cells in order; on the first cell whose
heading text (stripped, lower-cased) equals `fieldName`, read the value
before the non-breaking space; `"-"` gives the default, otherwise `int(...)`
is applied.  Any exception inside the loop (missing heading string, bad
`int`) becomes `BillboardParseException("Failed to parse ministats cell
value: <field>")`.  If no cell matches, the default is returned. -/
def gMCV (cells : List MinistatCell) (field : String) (dflt : Option Int) :
    Except String (Option Int) :=
  match cells with
  | [] => .ok dflt
  | c :: rest =>
    match c.heading with
    | none => .error ("Failed to parse ministats cell value: " ++ field)
    | some hd =>
      if strLower (trimS hd) = field then
        let v := trimS (cellFrontText c.text)
        if v = "-" then .ok dflt
        else
          match pyIntS v with
          | some k => .ok (some k)
          | none => .error ("Failed to parse ministats cell value: " ++ field)
      else gMCV rest field dflt

/-- Model of one iteration of the entry loop of `_parseOldStylePage`
(lines 206–270): title, artist, swap-on-empty-artist, image
(`data-src` preferred over `src`), rank, then — only when `self.date` is
truthy (`dated`) — the three ministats fields and `isNew = (weeks == 1)`. -/
def parseOldEntry (dated : Bool) (soup : OldEntrySoup) : Except String ChartEntry :=
  match soup.dataTitle with
  | none => .error "Failed to parse title"
  | some t0 =>
    match soup.dataArtist with
    | none => .error "Failed to parse artist"
    | some a0 =>
      let t1 := trimS t0
      let a1 := trimS a0
      let ta := if a1 = "" then ("", t1) else (t1, a1)
      match soup.image with
      | none => .error "Failed to parse image"
      | some im =>
        match (match im.dSrc with | some u => some u | none => im.src) with
        | none => .error "Failed to parse image"
        | some img =>
          match soup.dataRank with
          | none => .error "Failed to parse rank"
          | some r0 =>
            match pyIntS (trimS r0) with
            | none => .error "Failed to parse rank"
            | some rank =>
              if dated then
                match gMCV soup.ministats "peak" none with
                | .error m => .error m
                | .ok peakV =>
                  match gMCV soup.ministats "last" (some 0) with
                  | .error m => .error m
                  | .ok lastV =>
                    match gMCV soup.ministats "weeks" (some 1) with
                    | .error m => .error m
                    | .ok weeksV =>
                      .ok ⟨ta.1, ta.2, some img, peakV, lastV, weeksV, rank,
                           decide (weeksV = some 1)⟩
              else .ok ⟨ta.1, ta.2, some img, none, none, none, rank, false⟩

/-! ### New-style entry parsing (`_parseNewStylePage`, lines 282–340) -/

/-- First `span.chart-element__meta.text--<attr>` of the entry, as an
association lookup. -/
def lookupMeta (metas : List (String × Option String)) (attr : String) :
    Option (Option String) :=
  match metas with
  | [] => none
  | (k, v) :: rest => if k = attr then some v else lookupMeta rest attr

/-- Model of the local helper `getMeta(attribute, ifNoValue)` (lines
311–326): missing span, span without string, or string `"-"` give the
default; otherwise `int(selected.string.strip())`, converting failures into
`BillboardParseException("Failed to parse metadata value: <attr>")`. -/
def getMeta (metas : List (String × Option String)) (attr : String)
    (dflt : Option Int) : Except String (Option Int) :=
  match lookupMeta metas attr with
  | none => .ok dflt
  | some none => .ok dflt
  | some (some s) =>
    if s = "-" then .ok dflt
    else
      match pyIntS (trimS s) with
      | some k => .ok (some k)
      | none => .error ("Failed to parse metadata value: " ++ attr)

/-- Model of one iteration of the entry loop of `_parseNewStylePage`
(lines 282–340): title, artist, swap-on-empty-artist, `image = None`
(unimplemented there), rank, then the `peak`/`last`/`week` metas when
`self.date` is truthy. -/
def parseNewEntry (dated : Bool) (soup : NewEntrySoup) : Except String ChartEntry :=
  match soup.song with
  | none => .error "Failed to parse title"
  | some t0 =>
    match soup.artist with
    | none => .error "Failed to parse artist"
    | some a0 =>
      let t1 := trimS t0
      let a1 := trimS a0
      let ta := if a1 = "" then ("", t1) else (t1, a1)
      match soup.rank with
      | none => .error "Failed to parse rank"
      | some r0 =>
        match pyIntS (trimS r0) with
        | none => .error "Failed to parse rank"
        | some rank =>
          if dated then
            match getMeta soup.metas "peak" none with
            | .error m => .error m
            | .ok peakV =>
              match getMeta soup.metas "last" (some 0) with
              | .error m => .error m
              | .ok lastV =>
                match getMeta soup.metas "week" (some 1) with
                | .error m => .error m
                | .ok weeksV =>
                  .ok ⟨ta.1, ta.2, none, peakV, lastV, weeksV, rank,
                       decide (weeksV = some 1)⟩
          else .ok ⟨ta.1, ta.2, none, none, none, none, rank, false⟩

/-! ### The entry loops: incremental `self.entries.append` with abort -/

/-- Model of the `for entrySoup in ...: ... self.entries.append(entry)`
loops: each successfully parsed entry is appended to the state's `entries`
immediately; a parse failure raises, leaving the entries appended so far on
the object and returning the exception message. -/
def entriesLoop {α : Type} (pf : α → Except String PyEntryObj) :
    List α → ChartState → ChartState × Option String
  | [], st => (st, none)
  | x :: xs, st =>
    match pf x with
    | .error m => (st, some m)
    | .ok e => entriesLoop pf xs { st with entries := st.entries ++ [e] }

/-! ### Page-level parsing and the weekly fetch -/

/-- `href.split("/")[-1]`: the last path segment of a link target. -/
def lastSeg (h : String) : String :=
  ⟨((splitChar '/' h.toList).getLastD [])⟩

/-- Shared body of `_parseOldStylePage` after the date element: the
previous/next chevron links (lines 199–204), then the entry loop.
`self.date` is read inside the loop but never written there, so its
truthiness is computed once. -/
def parseOldStyleRest (st : ChartState) (doc : Document) :
    ChartState × Option String :=
  let st1 :=
    match doc.prevHref with
    | some h => if h ≠ "" then { st with previousDate := some (lastSeg h) } else st
    | none => st
  let st2 :=
    match doc.nextHref with
    | some h => if h ≠ "" then { st1 with nextDate := some (lastSeg h) } else st1
    | none => st1
  entriesLoop (fun s => (parseOldEntry (pyTruthyO st2.date) s).map PyEntryObj.weekly)
    doc.oldEntries st2

/-- Model of `ChartData._parseOldStylePage` (lines 192–270): if the date
button is present its text is parsed with `strptime("%B %d, %Y")` (an
unparseable text raises, aborting) and `self.date` is overwritten with the
`"%Y-%m-%d"` rendering; then chevron links and the entry loop. -/
def parseOldStylePage (st : ChartState) (doc : Document) :
    ChartState × Option String :=
  match doc.oldDateElement with
  | some t =>
    match strptimeBD (trimS t) with
    | none => (st, some "ValueError: time data does not match format")
    | some (y, mo, dy) =>
      parseOldStyleRest { st with date := some (fmtYMD y mo dy) } doc
  | none => parseOldStyleRest st doc

/-- The entry loop of `_parseNewStylePage` (no previous/next handling —
those lines are commented out in the source). -/
def parseNewStyleRest (st : ChartState) (doc : Document) :
    ChartState × Option String :=
  entriesLoop (fun s => (parseNewEntry (pyTruthyO st.date) s).map PyEntryObj.weekly)
    doc.newEntries st

/-- Model of `ChartData._parseNewStylePage` (lines 272–340). -/
def parseNewStylePage (st : ChartState) (doc : Document) :
    ChartState × Option String :=
  match doc.newDateElement with
  | some t =>
    match strptimeBD (trimS t) with
    | none => (st, some "ValueError: time data does not match format")
    | some (y, mo, dy) =>
      parseNewStyleRest { st with date := some (fmtYMD y mo dy) } doc
  | none => parseNewStyleRest st doc

/-- `" Chart"` removed from the end, once: `re.sub(" Chart$", "", s)`. -/
def stripChartTail (s : String) : String :=
  let l := s.toList
  if 6 ≤ l.length ∧ l.drop (l.length - 6) = [' ', 'C', 'h', 'a', 'r', 't'] then
    ⟨l.take (l.length - 6)⟩
  else s

/-- The chart-title step of `_parsePage` (lines 343–349):
`content.split("|")[0].strip()` with the `" Chart"` suffix removed. -/
def titleStep (st : ChartState) (doc : Document) : ChartState :=
  match doc.titleMeta with
  | none => st
  | some content =>
    { st with title := stripChartTail (trimS ⟨(splitChar '|' content.toList).headD []⟩) }

/-- The two page layouts. -/
inductive PageLayout where
  | oldStyle
  | newStyle
deriving DecidableEq, Repr

/-- Layout classification of `_parsePage` (lines 351–354): a document with
any `table` element is old-style, any other document is new-style. -/
def classifyDoc (d : Document) : PageLayout :=
  if d.tables.isEmpty then .newStyle else .oldStyle

/-- Model of `ChartData._parsePage` (lines 342–354): title step, then
dispatch on `soup.select("table")`. -/
def parsePage (st : ChartState) (doc : Document) : ChartState × Option String :=
  let st1 := titleStep st doc
  if doc.tables.isEmpty then parseNewStylePage st1 doc
  else parseOldStylePage st1 doc

/-- The request URL built by `ChartData.fetchEntries` (lines 360–364) from
the *pre-fetch* `self.name` and `self.date`. -/
def weeklyUrl (name : String) (date : Option String) : String :=
  if pyTruthyO date then
    "https://www.billboard.com/charts/" ++ name ++ "/" ++ date.getD ""
  else
    "https://www.billboard.com/charts/" ++ name

/-- Model of `ChartData.fetchEntries` (lines 356–374) with the transport
abstracted: the fetched document is a parameter, and the URL that would be
requested is returned alongside the parse outcome. -/
def fetchEntriesW (st : ChartState) (doc : Document) :
    String × (ChartState × Option String) :=
  (weeklyUrl st.name st.date, parsePage st doc)

/-- Model of `ChartData(name, date, fetch=True)` up to the fetch: the date
is validated locally first (no document is consulted); only then is the
fetch performed on the given document. -/
def chartDataInitFetch (name : String) (date : Option String) (doc : Document) :
    Except String (String × (ChartState × Option String)) :=
  match validateWeeklyDate date with
  | .error m => .error m
  | .ok _ => .ok (fetchEntriesW (initState name date) doc)

/-! ### Year-end date resolution (`YearEnd.__init__`, lines 456–502) -/

/-- Modelled from the spec: the per-epoch chart-name sets `ye2002`,
`ye2006`, `ye2008`, `ye2009`, `ye2010`, `ye2011`, `ye2012`, `ye2013`,
`ye2014` are imported from `year_end_first_charts.py`, which is not part of
the sources; only their membership tests are used (`self.name in ye2002`
etc.), so each set is modelled as a membership predicate. -/
structure EpochSets where
  ye2002 : String → Bool
  ye2006 : String → Bool
  ye2008 : String → Bool
  ye2009 : String → Bool
  ye2010 : String → Bool
  ye2011 : String → Bool
  ye2012 : String → Bool
  ye2013 : String → Bool
  ye2014 : String → Bool

/-- Modelled from the spec: "Each chart-name has a known earliest-available
year (one of a fixed set of epoch years …, looked up by membership in a
per-epoch set of chart names)" — i.e. every chart name belongs to at most
one epoch set.  An assignment `f` of at most one epoch year per name
induces the nine sets. -/
def esOf (f : String → Option Int) : EpochSets :=
  ⟨fun n => decide (f n = some 2002), fun n => decide (f n = some 2006),
   fun n => decide (f n = some 2008), fun n => decide (f n = some 2009),
   fun n => decide (f n = some 2010), fun n => decide (f n = some 2011),
   fun n => decide (f n = some 2012), fun n => decide (f n = some 2013),
   fun n => decide (f n = some 2014)⟩

/-- The clamping of `YearEnd.__init__` (lines 474–499): first clamp down to
`now.year - 1`, then the nine sequential epoch-clamp `if`s. -/
def applyClamps (es : EpochSets) (nowYear : Nat) (name : String) (y : Int) : Int :=
  let cy : Int := (nowYear : Int) - 1
  let y1 := if y > cy then cy else y
  let y2 := if es.ye2002 name ∧ y1 < 2002 then 2002 else y1
  let y3 := if es.ye2006 name ∧ y2 < 2006 then 2006 else y2
  let y4 := if es.ye2008 name ∧ y3 < 2008 then 2008 else y3
  let y5 := if es.ye2009 name ∧ y4 < 2009 then 2009 else y4
  let y6 := if es.ye2010 name ∧ y5 < 2010 then 2010 else y5
  let y7 := if es.ye2011 name ∧ y6 < 2011 then 2011 else y6
  let y8 := if es.ye2012 name ∧ y7 < 2012 then 2012 else y7
  let y9 := if es.ye2013 name ∧ y8 < 2013 then 2013 else y8
  if es.ye2014 name ∧ y9 < 2014 then 2014 else y9

/-- The shapes a caller can pass as the `date` argument of
`YearEnd.__init__`: `None`, a string, an `int`, or a `datetime.date`. -/
structure PyDate where
  year : Nat
  month : Nat
  day : Nat
deriving DecidableEq, Repr

/-- A `datetime.date` object is always a real calendar date. -/
def PyDate.Valid (d : PyDate) : Prop := RealYMD d.year d.month d.day

inductive PyDateInput where
  | pyNone
  | str (s : String)
  | int (n : Int)
  | date (d : PyDate)

/-- List core of the `^[0-9]{4}$` match.  In Python, `$` matches at the
end of the string *or just before one newline at the end*, so the regex
accepts exactly `dddd` and `dddd\n`. -/
def fourDigitL (l : List Char) : Bool :=
  match l with
  | [a, b, c, d] => (d4? a b c d).isSome
  | [a, b, c, d, nl] => (d4? a b c d).isSome && (nl == '\n')
  | _ => false

/-- Model of `re.match(r'^[0-9]{4}$', s)`: four ASCII digits, optionally
followed by a single trailing newline. -/
def fourDigitStr (s : String) : Bool := fourDigitL s.toList

/-- List core of `fourVal`. -/
def fourValL (l : List Char) : Nat :=
  match l with
  | [a, b, c, d] => (d4? a b c d).getD 0
  | [a, b, c, d, _] => (d4? a b c d).getD 0
  | _ => 0

/-- The value the source later reads from a matched string with `int()`;
`int()` strips surrounding whitespace, so `"2002\n"` also reads as 2002. -/
def fourVal (s : String) : Nat := fourValL s.toList

/-- Model of the date resolution of `YearEnd.__init__` (lines 456–499),
returning the resolved year (the source stores `str(date)`).

- A value whose `str()` is exactly four digits skips the shape block
  (for an `int`, `str(n)` has exactly four digits iff `1000 ≤ n ≤ 9999`;
  an `int`'s repr can never match the `YYYY-MM-DD` branch).
- A `datetime.date` is rendered by `str()` as zero-padded isoformat and
  re-parsed with `strptime('%Y-%m-%d')`; its year is kept.
- A string with a `\d{4}-\d{2}-\d{2}` front is parsed with the same strict
  `strptime`; a parse failure there is an uncaught `ValueError`.
- Anything else raises `ValueError('Date argument is not in YYYY')`.
- `None` defaults to `now.year - 1`.
Then the clamps of `applyClamps` run. -/
def resolveYearImpl (es : EpochSets) (nowYear : Nat) (name : String)
    (input : PyDateInput) : Except String Int :=
  let parsed : Except String Int :=
    match input with
    | .pyNone => .ok ((nowYear : Int) - 1)
    | .str s =>
      if fourDigitStr s then .ok (fourVal s)
      else
        match pyYMDstrict s with
        | some (y, _, _) => .ok (y : Int)
        | none =>
          if ymdShapeFront s then .error "ValueError: unconverted data remains or bad date"
          else .error "Date argument is not in YYYY"
    | .int n => if 1000 ≤ n ∧ n ≤ 9999 then .ok n else .error "Date argument is not in YYYY"
    | .date d =>
      match pyYMDstrict (pyDateStr d.year d.month d.day) with
      | some (y, _, _) => .ok (y : Int)
      | none => .error "ValueError: time data does not match format"
  match parsed with
  | .error m => .error m
  | .ok y0 => .ok (applyClamps es nowYear name y0)

/-- Spec-side epoch lookup: the epoch year of a chart name under the
spec-modelled epoch assignment `f` (only the nine epoch years count). -/
def epochYearOfF (f : String → Option Int) (name : String) : Option Int :=
  match f name with
  | some k =>
    if k = 2002 ∨ k = 2006 ∨ k = 2008 ∨ k = 2009 ∨ k = 2010 ∨ k = 2011 ∨
       k = 2012 ∨ k = 2013 ∨ k = 2014 then some k else none
  | none => none

/-- Spec-side clamping: clamp down to the latest available year
`now.year - 1`, then clamp up to the chart's epoch year, if it has one. -/
def clampSpec (f : String → Option Int) (nowYear : Nat) (name : String)
    (y : Int) : Int :=
  let u := min y ((nowYear : Int) - 1)
  match epochYearOfF f name with
  | none => u
  | some k => max k u


/-! ### Year-end fetch (`YearEnd.fetchEntries`, lines 527–612) -/

/-- One `ye-chart-item` element: the texts of its title/artist/rank divs
(`none` when `div.select(...)[0]` raises `IndexError`). -/
structure YEItem where
  title : Option String
  artist : Option String
  rank : Option String
deriving DecidableEq, Repr

/-- A fetched year-end page: everything the weekly `_parsePage` pass reads,
plus the `ye-chart-item` elements. -/
structure YEDoc where
  base : Document
  items : List YEItem
deriving DecidableEq, Repr

/-- Model of one iteration of the `ye-chart-item` loop (lines 588–612):
title, artist, swap-on-empty-artist, rank, producing a
`YearEndChartEntry`. -/
def parseYEItem (it : YEItem) : Except String PyEntryObj :=
  match it.title with
  | none => .error "Failed to parse title"
  | some t0 =>
    match it.artist with
    | none => .error "Failed to parse artist"
    | some a0 =>
      let t1 := trimS t0
      let a1 := trimS a0
      let ta := if a1 = "" then ("", t1) else (t1, a1)
      match it.rank with
      | none => .error "Failed to parse rank"
      | some r0 =>
        match pyIntS (trimS r0) with
        | none => .error "Failed to parse rank"
        | some rank => .ok (.yearEnd ta.1 ta.2 rank)

/-- The adjacency-and-items tail of `YearEnd.fetchEntries` (lines 566–612),
starting from `prevYear = int(self.date)`: a nonzero year sets
`previousDate = str(year - 1)`; a year that is nonzero and differs from
`now.year - 1` sets `nextDate = str(year + 1)`; then the item loop. -/
def yearEndTail (nowYear : Nat) (st : ChartState) (items : List YEItem)
    (url : String) : String × (ChartState × Option String) :=
  match st.date with
  | none => (url, st, some "TypeError: int() argument must be a string or a number")
  | some ds =>
    match pyIntS ds with
    | none => (url, st, some "ValueError: invalid literal for int()")
    | some y =>
      let st3 := if y ≠ 0 then { st with previousDate := some (toString (y - 1)) } else st
      let st4 :=
        if y ≠ 0 ∧ y ≠ (nowYear : Int) - 1 then
          { st3 with nextDate := some (toString (y + 1)) }
        else st3
      (url, entriesLoop parseYEItem items st4)

/-- Model of `YearEnd.fetchEntries` (lines 527–612) with the transport
abstracted: build the year-end URL from the pre-fetch state, run the weekly
`_parsePage` pass over the page, re-check the old-style date button, then
the adjacency assignments and the `ye-chart-item` loop. -/
def yearEndFetch (nowYear : Nat) (st : ChartState) (doc : YEDoc) :
    String × (ChartState × Option String) :=
  let url := "http://www.billboard.com/charts/year-end/" ++ (st.date.getD "None")
      ++ "/" ++ st.name
  match parsePage st doc.base with
  | (st1, some m) => (url, st1, some m)
  | (st1, none) =>
    match doc.base.oldDateElement with
    | some t =>
      match strptimeBD (trimS t) with
      | none => (url, st1, some "ValueError: time data does not match format")
      | some (y, mo, dy) =>
        yearEndTail nowYear { st1 with date := some (fmtYMD y mo dy) } doc.items url
    | none => yearEndTail nowYear st1 doc.items url

/-! ### Concrete inputs used by witnesses and counterexamples -/

def imSoup1 : ImageSoup := ⟨some "https://img/1.jpg", none⟩
def imSoup2 : ImageSoup := ⟨none, some "https://img/2.jpg"⟩

/-- An old-style entry that parses (undated parse path). -/
def oldSoupA : OldEntrySoup :=
  ⟨some "Song A", some "Artist B", some imSoup1, some "1", []⟩

/-- An old-style entry whose `data-rank` attribute is missing. -/
def oldSoupBadRank : OldEntrySoup :=
  ⟨some "Song C", some "Artist D", some imSoup2, none, []⟩

/-- An old-style entry with full ministats. -/
def oldSoupStats : OldEntrySoup :=
  ⟨some " Song E ", some "", some imSoup1, some "2",
   [⟨some "Peak", "3\xa0extra"⟩, ⟨some "Last", "-"⟩, ⟨some "Weeks", "1"⟩]⟩

/-- An old-style document with two entries, the second of which fails. -/
def docC3 : Document :=
  ⟨none, none, none, none, none, [()], [oldSoupA, oldSoupBadRank], []⟩

/-- A pre-fetch state for the `hot-100` chart, no date supplied. -/
def stHot : ChartState := initState "hot-100" none

/-- An old-style document carrying only a date button. -/
def docC10 : Document :=
  ⟨some "Hot 100 Chart | Billboard", some "July 4, 2020", none, none, none, [()], [], []⟩

/-- A table-free document (new style). -/
def docNewEmpty : Document := ⟨none, none, none, none, none, [], [], []⟩

/-- A year-end page with nothing on it. -/
def yeDocEmpty : YEDoc := ⟨docNewEmpty, []⟩

/-- A year-end state whose resolved year is 0 (an unclamped chart name with
caller date "0000"). -/
def stYE0 : ChartState := ⟨"some-unlisted-chart", "", some "0000", none, none, []⟩

/-- A year-end state with resolved year 2019. -/
def stYE2019 : ChartState := ⟨"hot-100-songs", "", some "2019", none, none, []⟩

/-- A parseable `ye-chart-item`. -/
def yeItemA : YEItem := ⟨some "Song Y", some "Artist Z", some "3"⟩

/-- A `ye-chart-item` whose artist div is empty (swap case). -/
def yeItemSwap : YEItem := ⟨some "Lil Nas X Featuring Billy Ray Cyrus", some " ", some "1"⟩

/-- A new-style entry with metas. -/
def newSoupA : NewEntrySoup :=
  ⟨some "Song N", some "Artist M", some "4",
   [("peak", some "2"), ("last", some "-"), ("week", some "9")]⟩

/-- A new-style entry with an empty artist span (swap case). -/
def newSoupSwap : NewEntrySoup := ⟨some "Combined Label", some "", some "5", []⟩

/-- The first ministats cell whose (stripped, lower-cased) heading equals
the field name — the cell `getMinistatsCellValue` reads. -/
def mCellFind (cells : List MinistatCell) (field : String) : Option MinistatCell :=
  cells.find? (fun c => strLower (trimS (c.heading.getD "")) == field)

/-- The value text of a ministats cell: text before the non-breaking
space, stripped. -/
def mCellVal (c : MinistatCell) : String := trimS (cellFrontText c.text)

/-! ### Helper lemmas: digits and the strict `YYYY-MM-DD` parse -/

theorem charToDigit_digitChar (k : Nat) (h : k < 10) :
    charToDigit? (digitChar k) = some k := by
  interval_cases k <;> rfl

theorem digitChar_of_charToDigit {c : Char} {k : Nat}
    (h : charToDigit? c = some k) : digitChar k = c := by
  unfold charToDigit? at h
  split_ifs at h <;> simp_all <;> subst h <;> rfl

theorem charToDigit_lt {c : Char} {k : Nat} (h : charToDigit? c = some k) :
    k < 10 := by
  unfold charToDigit? at h
  split_ifs at h <;> simp_all <;> omega

theorem d2_digits {e f : Nat} (he : e < 10) (hf : f < 10) :
    d2? (digitChar e) (digitChar f) = some (10 * e + f) := by
  unfold d2?
  rw [charToDigit_digitChar e he, charToDigit_digitChar f hf]

theorem d4_digits {a b c d : Nat} (ha : a < 10) (hb : b < 10) (hc : c < 10)
    (hd : d < 10) :
    d4? (digitChar a) (digitChar b) (digitChar c) (digitChar d) =
      some (1000 * a + 100 * b + 10 * c + d) := by
  unfold d4?
  rw [charToDigit_digitChar a ha, charToDigit_digitChar b hb,
    charToDigit_digitChar c hc, charToDigit_digitChar d hd]

theorem d2_inv {x y : Char} {v : Nat} (h : d2? x y = some v) :
    ∃ a b, charToDigit? x = some a ∧ charToDigit? y = some b ∧
      v = 10 * a + b ∧ x = digitChar a ∧ y = digitChar b ∧ a < 10 ∧ b < 10 := by
  unfold d2? at h
  cases hx : charToDigit? x with
  | none => rw [hx] at h; cases h
  | some a =>
    cases hy : charToDigit? y with
    | none => rw [hx, hy] at h; cases h
    | some b =>
      rw [hx, hy] at h
      refine ⟨a, b, rfl, rfl, by injection h with h2; omega,
        (digitChar_of_charToDigit hx).symm, (digitChar_of_charToDigit hy).symm,
        charToDigit_lt hx, charToDigit_lt hy⟩

theorem d4_inv {x y z w : Char} {v : Nat} (h : d4? x y z w = some v) :
    ∃ a b c d, charToDigit? x = some a ∧ charToDigit? y = some b ∧
      charToDigit? z = some c ∧ charToDigit? w = some d ∧
      v = 1000 * a + 100 * b + 10 * c + d ∧
      x = digitChar a ∧ y = digitChar b ∧ z = digitChar c ∧ w = digitChar d ∧
      a < 10 ∧ b < 10 ∧ c < 10 ∧ d < 10 := by
  unfold d4? at h
  cases hx : charToDigit? x with
  | none => rw [hx] at h; cases h
  | some a =>
    cases hy : charToDigit? y with
    | none => rw [hx, hy] at h; cases h
    | some b =>
      cases hz : charToDigit? z with
      | none => rw [hx, hy, hz] at h; cases h
      | some c =>
        cases hw : charToDigit? w with
        | none => rw [hx, hy, hz, hw] at h; cases h
        | some d =>
          rw [hx, hy, hz, hw] at h
          exact ⟨a, b, c, d, rfl, rfl, rfl, rfl, by injection h with h2; omega,
            (digitChar_of_charToDigit hx).symm, (digitChar_of_charToDigit hy).symm,
            (digitChar_of_charToDigit hz).symm, (digitChar_of_charToDigit hw).symm,
            charToDigit_lt hx, charToDigit_lt hy, charToDigit_lt hz, charToDigit_lt hw⟩

theorem daysInMonth_le_31 (y m : Nat) : daysInMonth y m ≤ 31 := by
  unfold daysInMonth
  split_ifs <;> omega

theorem pyYMDstrict_pyDateStr {y m d : Nat} (h : RealYMD y m d) :
    pyYMDstrict (pyDateStr y m d) = some (y, m, d) := by
  obtain ⟨h1, h2, h3, h4, h5, h6⟩ := h
  have h31 : d ≤ 31 := le_trans h6 (daysInMonth_le_31 y m)
  have hy : 1000 * (y / 1000 % 10) + 100 * (y / 100 % 10) + 10 * (y / 10 % 10) +
      y % 10 = y := by omega
  have hm : 10 * (m / 10 % 10) + m % 10 = m := by omega
  have hd : 10 * (d / 10 % 10) + d % 10 = d := by omega
  show pyYMDstrictL [digitChar (y / 1000 % 10), digitChar (y / 100 % 10),
      digitChar (y / 10 % 10), digitChar (y % 10), '-',
      digitChar (m / 10 % 10), digitChar (m % 10), '-',
      digitChar (d / 10 % 10), digitChar (d % 10)] = some (y, m, d)
  dsimp only [pyYMDstrictL]
  rw [d4_digits (by omega) (by omega) (by omega) (by omega),
    d2_digits (by omega) (by omega), d2_digits (by omega) (by omega)]
  rw [hy, hm, hd]
  dsimp only
  simp [h1, h3, h4, h5, h6, h31]

theorem pyYMDstrict_inv {s : String} {yy mm dd : Nat}
    (h : pyYMDstrict s = some (yy, mm, dd)) :
    RealYMD yy mm dd ∧ s = pyDateStr yy mm dd := by
  unfold pyYMDstrict at h
  rw [show s.toList = s.data from rfl] at h
  rcases hl : s.data with _ | ⟨a, _ | ⟨b, _ | ⟨c, _ | ⟨d, _ | ⟨k1, _ | ⟨e, _ |
    ⟨f, _ | ⟨k2, _ | ⟨g, _ | ⟨h10, _ | ⟨x, rest⟩⟩⟩⟩⟩⟩⟩⟩⟩⟩⟩ <;> rw [hl] at h
  · simp [pyYMDstrictL] at h
  · simp [pyYMDstrictL] at h
  · simp [pyYMDstrictL] at h
  · simp [pyYMDstrictL] at h
  · simp [pyYMDstrictL] at h
  · simp [pyYMDstrictL] at h
  · simp [pyYMDstrictL] at h
  · simp [pyYMDstrictL] at h
  · simp [pyYMDstrictL] at h
  · simp [pyYMDstrictL] at h
  · dsimp only [pyYMDstrictL] at h
    split_ifs at h with hk
    · cases heq4 : d4? a b c d with
      | none => simp [heq4] at h
      | some y2 =>
        cases heq2 : d2? e f with
        | none => simp [heq4, heq2] at h
        | some mo =>
          cases heq3 : d2? g h10 with
          | none => simp [heq4, heq2, heq3] at h
          | some dy =>
            rw [heq4, heq2, heq3] at h
            dsimp only at h
            split_ifs at h with hcond
            · have h2 : (y2, mo, dy) = (yy, mm, dd) := by injection h
              have hy2 : yy = y2 := (congrArg (fun p => p.1) h2).symm
              have hmo : mm = mo := (congrArg (fun p => p.2.1) h2).symm
              have hdy : dd = dy := (congrArg (fun p => p.2.2) h2).symm
              subst hy2; subst hmo; subst hdy
              obtain ⟨a1, b1, c1, d1, ha1, hb1, hc1, hd1, hyv, hca, hcb, hcc, hcd,
                la1, lb1, lc1, ld1⟩ := d4_inv heq4
              obtain ⟨e1, f1, he1, hf1, hmv, hce, hcf, le1, lf1⟩ := d2_inv heq2
              obtain ⟨g1, h1, hg1, hh1, hdv, hcg, hch, lg1, lh1⟩ := d2_inv heq3
              obtain ⟨hm1, hm2, hd1b, hd31, hy1, hdm⟩ := hcond
              have hy9999 : yy ≤ 9999 := by omega
              refine ⟨⟨hy1, hy9999, hm1, hm2, hd1b, hdm⟩, ?_⟩
              apply String.ext
              rw [hl]
              unfold pyDateStr
              have e1a : yy / 1000 % 10 = a1 := by omega
              have e1b : yy / 100 % 10 = b1 := by omega
              have e1c : yy / 10 % 10 = c1 := by omega
              have e1d : yy % 10 = d1 := by omega
              have e2e : mm / 10 % 10 = e1 := by omega
              have e2f : mm % 10 = f1 := by omega
              have e3g : dd / 10 % 10 = g1 := by omega
              have e3h : dd % 10 = h1 := by omega
              rw [e1a, e1b, e1c, e1d, e2e, e2f, e3g, e3h]
              rw [hca, hcb, hcc, hcd, hce, hcf, hcg, hch, hk.1, hk.2]
  · simp [pyYMDstrictL] at h

theorem applyClamps_esOf (f : String → Option Int) (nowYear : Nat)
    (name : String) (y : Int) :
    applyClamps (esOf f) nowYear name y = clampSpec f nowYear name y := by
  unfold applyClamps clampSpec epochYearOfF esOf
  cases hf : f name with
  | none =>
    simp only [hf]
    simp
    split_ifs <;> omega
  | some k =>
    by_cases h1 : k = 2002
    · subst h1; simp [hf]; split_ifs <;> omega
    · by_cases h2 : k = 2006
      · subst h2; simp [hf]; split_ifs <;> omega
      · by_cases h3 : k = 2008
        · subst h3; simp [hf]; split_ifs <;> omega
        · by_cases h4 : k = 2009
          · subst h4; simp [hf]; split_ifs <;> omega
          · by_cases h5 : k = 2010
            · subst h5; simp [hf]; split_ifs <;> omega
            · by_cases h6 : k = 2011
              · subst h6; simp [hf]; split_ifs <;> omega
              · by_cases h7 : k = 2012
                · subst h7; simp [hf]; split_ifs <;> omega
                · by_cases h8 : k = 2013
                  · subst h8; simp [hf]; split_ifs <;> omega
                  · by_cases h9 : k = 2014
                    · subst h9; simp [hf]; split_ifs <;> omega
                    · simp [hf, h1, h2, h3, h4, h5, h6, h7, h8, h9]
                      split_ifs <;> omega

/-! ### Helper lemmas: the entry loops -/

theorem entriesLoop_pres {α : Type} (pf : α → Except String PyEntryObj)
    (xs : List α) (st : ChartState) :
    (entriesLoop pf xs st).1.name = st.name ∧
    (entriesLoop pf xs st).1.title = st.title ∧
    (entriesLoop pf xs st).1.date = st.date ∧
    (entriesLoop pf xs st).1.previousDate = st.previousDate ∧
    (entriesLoop pf xs st).1.nextDate = st.nextDate := by
  induction xs generalizing st with
  | nil => exact ⟨rfl, rfl, rfl, rfl, rfl⟩
  | cons x xs ih =>
    unfold entriesLoop
    cases hpx : pf x with
    | error m => exact ⟨rfl, rfl, rfl, rfl, rfl⟩
    | ok e => exact ih { st with entries := st.entries ++ [e] }

theorem entriesLoop_spec {α : Type} (pf : α → Except String PyEntryObj)
    (xs : List α) (st : ChartState) :
    ((entriesLoop pf xs st).2 = none →
      (entriesLoop pf xs st).1.entries =
        st.entries ++ xs.filterMap (fun z => (pf z).toOption)) ∧
    (∀ m, (entriesLoop pf xs st).2 = some m →
      ∃ pre x post, xs = pre ++ x :: post ∧ pf x = .error m ∧
        (∀ z ∈ pre, (pf z).isOk = true) ∧
        (entriesLoop pf xs st).1.entries =
          st.entries ++ pre.filterMap (fun z => (pf z).toOption)) := by
  induction xs generalizing st with
  | nil =>
    refine ⟨fun _ => by simp [entriesLoop], fun m hm => ?_⟩
    simp [entriesLoop] at hm
  | cons x xs ih =>
    unfold entriesLoop
    cases hpx : pf x with
    | error m0 =>
      refine ⟨fun hok => by simp at hok, fun m hm => ?_⟩
      refine ⟨[], x, xs, by simp, ?_, by simp, by simp⟩
      simp at hm
      rw [hpx, hm]
    | ok e =>
      have ihs := ih { st with entries := st.entries ++ [e] }
      refine ⟨fun hok => ?_, fun m hm => ?_⟩
      · have h1 := ihs.1 hok
        simp at h1
        simp [h1, hpx, Except.toOption]
      · obtain ⟨pre, x1, post, hsplit, herr, hpre, hent⟩ := ihs.2 m hm
        refine ⟨x :: pre, x1, post, by simp [hsplit], herr, ?_, ?_⟩
        · intro z hz
          rcases List.mem_cons.mp hz with rfl | hz2
          · simp [hpx, Except.isOk, Except.toBool]
          · exact hpre z hz2
        · simp at hent
          simp [hent, hpx, Except.toOption]

theorem parseOldStyleRest_pres (st : ChartState) (doc : Document) :
    (parseOldStyleRest st doc).1.name = st.name ∧
    (parseOldStyleRest st doc).1.title = st.title ∧
    (parseOldStyleRest st doc).1.date = st.date := by
  unfold parseOldStyleRest
  cases doc.prevHref <;> cases doc.nextHref <;> dsimp only <;>
    (try split_ifs) <;>
    exact ⟨(entriesLoop_pres _ _ _).1, (entriesLoop_pres _ _ _).2.1,
      (entriesLoop_pres _ _ _).2.2.1⟩

theorem parseNewStyleRest_pres (st : ChartState) (doc : Document) :
    (parseNewStyleRest st doc).1.name = st.name ∧
    (parseNewStyleRest st doc).1.title = st.title ∧
    (parseNewStyleRest st doc).1.date = st.date ∧
    (parseNewStyleRest st doc).1.previousDate = st.previousDate ∧
    (parseNewStyleRest st doc).1.nextDate = st.nextDate := by
  unfold parseNewStyleRest
  exact ⟨(entriesLoop_pres _ _ _).1, (entriesLoop_pres _ _ _).2.1,
    (entriesLoop_pres _ _ _).2.2.1, (entriesLoop_pres _ _ _).2.2.2.1,
    (entriesLoop_pres _ _ _).2.2.2.2⟩

theorem titleStep_pres (st : ChartState) (doc : Document) :
    (titleStep st doc).name = st.name ∧ (titleStep st doc).date = st.date ∧
    (titleStep st doc).previousDate = st.previousDate ∧
    (titleStep st doc).nextDate = st.nextDate ∧
    (titleStep st doc).entries = st.entries := by
  unfold titleStep
  cases doc.titleMeta <;> exact ⟨rfl, rfl, rfl, rfl, rfl⟩

theorem parsePage_newEmpty_pres (st : ChartState) (doc : Document)
    (ht : doc.tables = []) (hd : doc.newDateElement = none) :
    (parsePage st doc).1.name = st.name ∧
    (parsePage st doc).1.date = st.date ∧
    (parsePage st doc).1.previousDate = st.previousDate ∧
    (parsePage st doc).1.nextDate = st.nextDate := by
  unfold parsePage parseNewStylePage
  rw [ht, hd]
  dsimp only [List.isEmpty]
  have hts := titleStep_pres st doc
  have hrs := parseNewStyleRest_pres (titleStep st doc) doc
  exact ⟨hrs.1.trans hts.1, hrs.2.2.1.trans hts.2.1,
    hrs.2.2.2.1.trans hts.2.2.1, hrs.2.2.2.2.trans hts.2.2.2.1⟩

/-- `getMinistatsCellValue`, characterised through `mCellFind` when every
cell has a heading string. -/
theorem gMCV_char (cells : List MinistatCell) (field : String) (dflt : Option Int)
    (hwf : ∀ c ∈ cells, c.heading ≠ none) :
    (mCellFind cells field = none → gMCV cells field dflt = .ok dflt) ∧
    (∀ c, mCellFind cells field = some c → mCellVal c = "-" →
      gMCV cells field dflt = .ok dflt) ∧
    (∀ c k, mCellFind cells field = some c → pyIntS (mCellVal c) = some k →
      gMCV cells field dflt = .ok (some k)) := by
  induction cells with
  | nil => exact ⟨fun _ => rfl, fun c hc => by simp [mCellFind] at hc,
      fun c k hc => by simp [mCellFind] at hc⟩
  | cons c0 rest ih =>
    have hh0 : c0.heading ≠ none := hwf c0 (by simp)
    obtain ⟨hd0, hhd0⟩ := Option.ne_none_iff_exists'.mp hh0
    have ihr := ih (fun c hc => hwf c (by simp [hc]))
    by_cases hmatch : strLower (trimS hd0) = field
    · refine ⟨fun hf => ?_, fun c hc hdash => ?_, fun c k hc hint => ?_⟩
      · exfalso
        simp [mCellFind, List.find?, hhd0, hmatch] at hf
      · have hceq : c = c0 := by
          simp [mCellFind, List.find?, hhd0, hmatch] at hc
          exact hc.symm
        subst hceq
        unfold gMCV
        rw [hhd0]
        simp only [if_pos hmatch]
        rw [if_pos (by simpa [mCellVal] using hdash)]
      · have hceq : c = c0 := by
          simp [mCellFind, List.find?, hhd0, hmatch] at hc
          exact hc.symm
        subst hceq
        unfold gMCV
        rw [hhd0]
        simp only [if_pos hmatch]
        have hnd : mCellVal c ≠ "-" := by
          intro hcon
          have hdash2 : pyIntS "-" = none := by decide
          rw [hcon, hdash2] at hint
          exact Option.noConfusion hint
        rw [if_neg (by simpa [mCellVal] using hnd)]
        rw [show trimS (cellFrontText c.text) = mCellVal c from rfl, hint]
    · have hbeq : (strLower (trimS hd0) == field) = false :=
        beq_eq_false_iff_ne.mpr hmatch
      have hfind : mCellFind (c0 :: rest) field = mCellFind rest field := by
        simp only [mCellFind, List.find?_cons, hhd0, Option.getD_some]
        rw [hbeq]
      have hg : gMCV (c0 :: rest) field dflt = gMCV rest field dflt := by
        conv_lhs => rw [gMCV.eq_def]
        dsimp only
        rw [hhd0]
        dsimp only
        rw [if_neg hmatch]
      rw [hfind, hg]
      exact ihr

/-! ### Claim theorems -/

/-- C4: in both weekly layouts and the year-end item parser, if the
extracted artist is empty after trimming, the produced entry has
`artist = extracted title` and `title = ""`; otherwise title and artist
are kept as extracted (trimmed). -/
theorem entry_swap_rule :
    (∀ (dated : Bool) (soup : OldEntrySoup) (t a : String) (e : ChartEntry),
      soup.dataTitle = some t → soup.dataArtist = some a →
      parseOldEntry dated soup = .ok e →
      (trimS a = "" → e.artist = trimS t ∧ e.title = "") ∧
      (trimS a ≠ "" → e.title = trimS t ∧ e.artist = trimS a)) ∧
    (∀ (dated : Bool) (soup : NewEntrySoup) (t a : String) (e : ChartEntry),
      soup.song = some t → soup.artist = some a →
      parseNewEntry dated soup = .ok e →
      (trimS a = "" → e.artist = trimS t ∧ e.title = "") ∧
      (trimS a ≠ "" → e.title = trimS t ∧ e.artist = trimS a)) ∧
    (∀ (it : YEItem) (t a : String) (obj : PyEntryObj),
      it.title = some t → it.artist = some a →
      parseYEItem it = .ok obj →
      (trimS a = "" → ∃ r, obj = .yearEnd "" (trimS t) r) ∧
      (trimS a ≠ "" → ∃ r, obj = .yearEnd (trimS t) (trimS a) r)) := by
  refine ⟨?_, ?_, ?_⟩
  · intro dated soup t a e ht ha hp
    unfold parseOldEntry at hp
    rw [ht, ha] at hp
    dsimp only at hp
    constructor
    · intro hae
      rw [if_pos hae] at hp
      repeat' split at hp
      all_goals first
        | exact Except.noConfusion hp
        | (injection hp with he; rw [← he]; exact ⟨rfl, rfl⟩)
    · intro hae
      rw [if_neg hae] at hp
      repeat' split at hp
      all_goals first
        | exact Except.noConfusion hp
        | (injection hp with he; rw [← he]; exact ⟨rfl, rfl⟩)
  · intro dated soup t a e ht ha hp
    unfold parseNewEntry at hp
    rw [ht, ha] at hp
    dsimp only at hp
    constructor
    · intro hae
      rw [if_pos hae] at hp
      repeat' split at hp
      all_goals first
        | exact Except.noConfusion hp
        | (injection hp with he; rw [← he]; exact ⟨rfl, rfl⟩)
    · intro hae
      rw [if_neg hae] at hp
      repeat' split at hp
      all_goals first
        | exact Except.noConfusion hp
        | (injection hp with he; rw [← he]; exact ⟨rfl, rfl⟩)
  · intro it t a obj ht ha hp
    unfold parseYEItem at hp
    rw [ht, ha] at hp
    dsimp only at hp
    constructor
    · intro hae
      rw [if_pos hae] at hp
      repeat' split at hp
      all_goals first
        | exact Except.noConfusion hp
        | (injection hp with he; exact ⟨_, he.symm⟩)
    · intro hae
      rw [if_neg hae] at hp
      repeat' split at hp
      all_goals first
        | exact Except.noConfusion hp
        | (injection hp with he; exact ⟨_, he.symm⟩)

/-- Witness for C4: a new-style entry whose artist span is empty is
produced with the swap applied. -/
theorem entry_swap_rule_witness :
    (⟨"", "Combined Label", none, none, none, none, 5, false⟩ : ChartEntry).artist =
      trimS "Combined Label" ∧
    (⟨"", "Combined Label", none, none, none, none, 5, false⟩ : ChartEntry).title = "" :=
  (entry_swap_rule.2.1 false newSoupSwap "Combined Label" ""
    ⟨"", "Combined Label", none, none, none, none, 5, false⟩ rfl rfl (by decide)).1
    (by decide)

/-- C5: for a dated snapshot, `isNew` holds iff the (defaulted) weeks value
equals 1; for an undated snapshot the three ministats fields are `None`,
`isNew` is false, and the ministats cells are never consulted. -/
theorem dated_isNew_undated_defaults :
    (∀ (soup : OldEntrySoup) (e : ChartEntry),
      parseOldEntry true soup = .ok e → (e.isNew = true ↔ e.weeks = some 1)) ∧
    (∀ (soup : OldEntrySoup) (e : ChartEntry),
      parseOldEntry false soup = .ok e →
      e.peakPos = none ∧ e.lastPos = none ∧ e.weeks = none ∧ e.isNew = false) ∧
    (∀ (soup : OldEntrySoup) (cells : List MinistatCell),
      parseOldEntry false { soup with ministats := cells } =
        parseOldEntry false soup) := by
  refine ⟨?_, ?_, ?_⟩
  · intro soup e hp
    unfold parseOldEntry at hp
    dsimp only at hp
    repeat' split at hp
    all_goals first
      | exact Except.noConfusion hp
      | (injection hp with he; rw [← he]; simp)
  · intro soup e hp
    unfold parseOldEntry at hp
    dsimp only at hp
    repeat' split at hp
    all_goals first
      | exact Except.noConfusion hp
      | (injection hp with he; rw [← he]; exact ⟨rfl, rfl, rfl, rfl⟩)
      | simp_all
  · intro soup cells
    rfl

/-- Witness for C5: a dated entry whose weeks cell reads 1 is new, and an
undated parse of the same entry leaves the trend fields empty. -/
theorem dated_isNew_undated_defaults_witness :
    ((⟨"", "Song E", some "https://img/1.jpg", some 3, some 0, some 1, 2, true⟩ :
        ChartEntry).isNew = true ↔
      (⟨"", "Song E", some "https://img/1.jpg", some 3, some 0, some 1, 2, true⟩ :
        ChartEntry).weeks = some 1) ∧
    (∀ e, parseOldEntry false oldSoupStats = .ok e →
      e.peakPos = none ∧ e.lastPos = none ∧ e.weeks = none ∧ e.isNew = false) := by
  constructor
  · exact dated_isNew_undated_defaults.1 oldSoupStats
      ⟨"", "Song E", some "https://img/1.jpg", some 3, some 0, some 1, 2, true⟩
      (by decide)
  · intro e hp
    exact dated_isNew_undated_defaults.2.1 oldSoupStats e hp

/-- C6: ministats defaults — a missing or `"-"` cell yields the default
(`None` for peak, 0 for last, 1 for weeks), and a cell holding a value is
coerced with `int(...)`; the three call sites of `getMinistatsCellValue`
use exactly those defaults. -/
theorem ministats_defaults :
    (∀ (cells : List MinistatCell) (field : String) (dflt : Option Int),
      (∀ c ∈ cells, c.heading ≠ none) →
      ((mCellFind cells field = none → gMCV cells field dflt = .ok dflt) ∧
       (∀ c, mCellFind cells field = some c → mCellVal c = "-" →
         gMCV cells field dflt = .ok dflt) ∧
       (∀ c k, mCellFind cells field = some c → pyIntS (mCellVal c) = some k →
         gMCV cells field dflt = .ok (some k)))) ∧
    (∀ (soup : OldEntrySoup) (e : ChartEntry), parseOldEntry true soup = .ok e →
      gMCV soup.ministats "peak" none = .ok e.peakPos ∧
      gMCV soup.ministats "last" (some 0) = .ok e.lastPos ∧
      gMCV soup.ministats "weeks" (some 1) = .ok e.weeks) := by
  refine ⟨gMCV_char, ?_⟩
  intro soup e hp
  unfold parseOldEntry at hp
  dsimp only at hp
  repeat' split at hp
  all_goals first
    | exact Except.noConfusion hp
    | (injection hp with he; rw [← he]; simp_all)

/-- Witness for C6: on a concrete cell list, the `peak` cell value 3 is
coerced, the `"-"`-valued `last` cell defaults to 0, and a missing `wks`
cell defaults. -/
theorem ministats_defaults_witness :
    gMCV oldSoupStats.ministats "peak" none = .ok (some 3) ∧
    gMCV oldSoupStats.ministats "last" (some 0) = .ok (some 0) ∧
    gMCV oldSoupStats.ministats "nosuch" (some 7) = .ok (some 7) := by
  refine ⟨?_, ?_, ?_⟩
  · exact (ministats_defaults.1 oldSoupStats.ministats "peak" none
      (by decide)).2.2 ⟨some "Peak", "3\xa0extra"⟩ 3 (by decide) (by decide)
  · exact (ministats_defaults.1 oldSoupStats.ministats "last" (some 0)
      (by decide)).2.1 ⟨some "Last", "-"⟩ (by decide) (by decide)
  · exact (ministats_defaults.1 oldSoupStats.ministats "nosuch" (some 7)
      (by decide)).1 (by decide)

/-- C7: layout classification is a total two-way dispatch: a document with
a `table` element is old-style, any other document is new-style, and
`_parsePage` parses with the corresponding parser. -/
theorem layout_binary :
    ∀ (d : Document) (st : ChartState),
      (classifyDoc d = .oldStyle ↔ d.tables ≠ []) ∧
      (classifyDoc d = .newStyle ↔ d.tables = []) ∧
      (classifyDoc d = .oldStyle ∨ classifyDoc d = .newStyle) ∧
      parsePage st d =
        (match classifyDoc d with
         | .oldStyle => parseOldStylePage (titleStep st d) d
         | .newStyle => parseNewStylePage (titleStep st d) d) := by
  intro d st
  unfold classifyDoc parsePage
  cases htab : d.tables with
  | nil => simp [htab, List.isEmpty]
  | cons x xs => simp [htab, List.isEmpty]

/-- Witness for C7: the classifier sends a document with a table marker to
old style, and an empty document to new style. -/
theorem layout_binary_witness :
    classifyDoc docC3 = .oldStyle ∧ classifyDoc docNewEmpty = .newStyle :=
  ⟨(layout_binary docC3 stHot).1.mpr (by decide),
   (layout_binary docNewEmpty stHot).2.1.mpr (by decide)⟩

/-- C9: a `YearEndChartEntry` carries exactly the attributes `title`,
`artist` and `rank`; the weekly-trend attributes and `image` are absent
(not merely `None`), and the year-end item loop only produces such
entries. -/
theorem yearEnd_entry_attrs :
    ∀ (t a : String) (r : Int),
      pyGetAttr (.yearEnd t a r) "title" = some (.str t) ∧
      pyGetAttr (.yearEnd t a r) "artist" = some (.str a) ∧
      pyGetAttr (.yearEnd t a r) "rank" = some (.int r) ∧
      pyGetAttr (.yearEnd t a r) "peakPos" = none ∧
      pyGetAttr (.yearEnd t a r) "lastPos" = none ∧
      pyGetAttr (.yearEnd t a r) "weeks" = none ∧
      pyGetAttr (.yearEnd t a r) "isNew" = none ∧
      pyGetAttr (.yearEnd t a r) "image" = none ∧
      (∀ f v, pyGetAttr (.yearEnd t a r) f = some v →
        f = "title" ∨ f = "artist" ∨ f = "rank") ∧
      (∀ (it : YEItem) (obj : PyEntryObj), parseYEItem it = .ok obj →
        ∃ t2 a2 r2, obj = .yearEnd t2 a2 r2) := by
  intro t a r
  refine ⟨rfl, rfl, rfl, rfl, rfl, rfl, rfl, rfl, ?_, ?_⟩
  · intro f v h
    unfold pyGetAttr at h
    dsimp only at h
    split_ifs at h with h1 h2 h3
    · exact Or.inl h1
    · exact Or.inr (Or.inl h2)
    · exact Or.inr (Or.inr h3)
  · intro it obj hp
    unfold parseYEItem at hp
    repeat' split at hp
    all_goals first
      | exact Except.noConfusion hp
      | (injection hp with he; exact ⟨_, _, _, he.symm⟩)

/-- Witness for C9: a concrete year-end item parses to a year-end object,
and that object has no `weeks` attribute. -/
theorem yearEnd_entry_attrs_witness :
    (∃ t2 a2 r2, (PyEntryObj.yearEnd "Song Y" "Artist Z" 3) = .yearEnd t2 a2 r2) ∧
    pyGetAttr (.yearEnd "Song Y" "Artist Z" 3) "weeks" = none :=
  ⟨(yearEnd_entry_attrs "Song Y" "Artist Z" 3).2.2.2.2.2.2.2.2.2 yeItemA
      (.yearEnd "Song Y" "Artist Z" 3) (by decide),
   (yearEnd_entry_attrs "Song Y" "Artist Z" 3).2.2.2.2.2.1⟩

/-- C1 (amended): `YearEnd` date resolution accepts a bare 4-digit year
(as an int, or as a string optionally followed by one trailing newline,
which the `$` of `re.match(r'^[0-9]{4}$', ...)` accepts and `int()`
strips), a full `YYYY-MM-DD` date string (year extracted), a date value,
or `None` (previous calendar year); it raises `ValueError` for any other
shape, and clamps the resolved year down to `now.year - 1` and up to the
chart's epoch year under the spec-modelled epoch assignment `f`.  The last
conjunct characterises the 4-digit match shape explicitly. -/
theorem yearEnd_resolveYear_spec (f : String → Option Int) (nowYear : Nat)
    (name : String) :
    resolveYearImpl (esOf f) nowYear name .pyNone =
      .ok (clampSpec f nowYear name ((nowYear : Int) - 1)) ∧
    (∀ s : String, fourDigitStr s = true →
      resolveYearImpl (esOf f) nowYear name (.str s) =
        .ok (clampSpec f nowYear name (fourVal s))) ∧
    (∀ y m d : Nat, RealYMD y m d →
      resolveYearImpl (esOf f) nowYear name (.str (pyDateStr y m d)) =
        .ok (clampSpec f nowYear name (y : Int))) ∧
    (∀ s : String, fourDigitStr s = false →
      (∀ y m d : Nat, RealYMD y m d → s ≠ pyDateStr y m d) →
      ∃ msg, resolveYearImpl (esOf f) nowYear name (.str s) = .error msg) ∧
    (∀ n : Int, 1000 ≤ n → n ≤ 9999 →
      resolveYearImpl (esOf f) nowYear name (.int n) =
        .ok (clampSpec f nowYear name n)) ∧
    (∀ n : Int, n < 1000 ∨ 9999 < n →
      ∃ msg, resolveYearImpl (esOf f) nowYear name (.int n) = .error msg) ∧
    (∀ d : PyDate, d.Valid →
      resolveYearImpl (esOf f) nowYear name (.date d) =
        .ok (clampSpec f nowYear name (d.year : Int))) ∧
    (∀ s : String, fourDigitStr s = true ↔
      ∃ a b c d : Nat, a < 10 ∧ b < 10 ∧ c < 10 ∧ d < 10 ∧
        fourVal s = 1000 * a + 100 * b + 10 * c + d ∧
        (s = ⟨[digitChar a, digitChar b, digitChar c, digitChar d]⟩ ∨
         s = ⟨[digitChar a, digitChar b, digitChar c, digitChar d, '\n']⟩)) := by
  refine ⟨?_, ?_, ?_, ?_, ?_, ?_, ?_, ?_⟩
  · show Except.ok (applyClamps (esOf f) nowYear name ((nowYear : Int) - 1)) = _
    rw [applyClamps_esOf]
  · intro s hfd
    unfold resolveYearImpl
    dsimp only
    rw [hfd]
    show Except.ok (applyClamps (esOf f) nowYear name (fourVal s)) = _
    rw [applyClamps_esOf]
  · intro y m d hreal
    unfold resolveYearImpl
    dsimp only
    rw [show fourDigitStr (pyDateStr y m d) = false from rfl,
      pyYMDstrict_pyDateStr hreal]
    show Except.ok (applyClamps (esOf f) nowYear name (y : Int)) = _
    rw [applyClamps_esOf]
  · intro s hfd hniso
    have hstrict : pyYMDstrict s = none := by
      cases hps : pyYMDstrict s with
      | none => rfl
      | some trip =>
        obtain ⟨y, m, d⟩ := trip
        obtain ⟨hreal, hs⟩ := pyYMDstrict_inv hps
        exact absurd hs (hniso y m d hreal)
    unfold resolveYearImpl
    dsimp only
    rw [hfd, hstrict]
    cases hsf : ymdShapeFront s
    · exact ⟨"Date argument is not in YYYY", rfl⟩
    · exact ⟨"ValueError: unconverted data remains or bad date", rfl⟩
  · intro n h1 h2
    unfold resolveYearImpl
    dsimp only
    rw [if_pos ⟨h1, h2⟩]
    show Except.ok (applyClamps (esOf f) nowYear name n) = _
    rw [applyClamps_esOf]
  · intro n hout
    unfold resolveYearImpl
    dsimp only
    rw [if_neg (by omega : ¬(1000 ≤ n ∧ n ≤ 9999))]
    exact ⟨"Date argument is not in YYYY", rfl⟩
  · intro d hv
    unfold resolveYearImpl
    dsimp only
    rw [pyYMDstrict_pyDateStr hv]
    show Except.ok (applyClamps (esOf f) nowYear name (d.year : Int)) = _
    rw [applyClamps_esOf]
  · intro s
    constructor
    · intro h
      unfold fourDigitStr fourDigitL at h
      rw [show s.toList = s.data from rfl] at h
      rcases hl : s.data with _ | ⟨a, _ | ⟨b, _ | ⟨c, _ | ⟨d, _ | ⟨e, _ |
        ⟨x, rest⟩⟩⟩⟩⟩⟩ <;> rw [hl] at h
      · simp at h
      · simp at h
      · simp at h
      · simp at h
      · dsimp only at h
        cases h4 : d4? a b c d with
        | none => rw [h4] at h; simp at h
        | some v =>
          obtain ⟨a1, b1, c1, d1, -, -, -, -, hval, hca, hcb, hcc, hcd,
            la, lb, lc, ld⟩ := d4_inv h4
          refine ⟨a1, b1, c1, d1, la, lb, lc, ld, ?_, Or.inl ?_⟩
          · unfold fourVal fourValL
            rw [show s.toList = s.data from rfl, hl]
            dsimp only
            rw [h4]
            simp [hval]
          · apply String.ext
            rw [hl, hca, hcb, hcc, hcd]
      · dsimp only at h
        rw [Bool.and_eq_true] at h
        obtain ⟨h4s, hnl⟩ := h
        have hnl2 : e = '\n' := beq_iff_eq.mp hnl
        cases h4 : d4? a b c d with
        | none => rw [h4] at h4s; simp at h4s
        | some v =>
          obtain ⟨a1, b1, c1, d1, -, -, -, -, hval, hca, hcb, hcc, hcd,
            la, lb, lc, ld⟩ := d4_inv h4
          refine ⟨a1, b1, c1, d1, la, lb, lc, ld, ?_, Or.inr ?_⟩
          · unfold fourVal fourValL
            rw [show s.toList = s.data from rfl, hl]
            dsimp only
            rw [h4]
            simp [hval]
          · apply String.ext
            rw [hl, hca, hcb, hcc, hcd, hnl2]
      · simp at h
    · rintro ⟨a, b, c, d, ha, hb, hc, hd, -, hs | hs⟩ <;> subst hs
      · show fourDigitL [digitChar a, digitChar b, digitChar c, digitChar d] = true
        dsimp only [fourDigitL]
        rw [d4_digits ha hb hc hd]
        rfl
      · show fourDigitL [digitChar a, digitChar b, digitChar c, digitChar d,
          '\n'] = true
        dsimp only [fourDigitL]
        rw [d4_digits ha hb hc hd]
        rfl

/-- C1 counterexample: the claim as stated is false of the program —
`"2002\n"` is not a bare 4-digit year (five characters, ending in a
newline) and not a `YYYY-MM-DD` date string, yet `YearEnd.__init__`
accepts it and resolves 2002: `re.match(r'^[0-9]{4}$', "2002\n")` matches
because Python's `$` also matches just before a trailing newline, and
`int("2002\n")` strips the whitespace. -/
theorem yearEnd_trailing_newline_ctrex :
    resolveYearImpl (esOf fun _ => none) 2026 "hot-rock-songs" (.str "2002\n") =
      .ok 2002 ∧
    ("2002\n" : String).toList.length = 5 ∧
    ("2002\n" : String).toList.getLast? = some '\n' ∧
    (∀ y m d : Nat, RealYMD y m d → ("2002\n" : String) ≠ pyDateStr y m d) := by
  refine ⟨by decide, by decide, by decide, ?_⟩
  intro y m d _ hcon
  have hlen : ("2002\n" : String).toList.length =
      (pyDateStr y m d).toList.length := by rw [hcon]
  have h1 : ("2002\n" : String).toList.length = 5 := by decide
  have h2 : (pyDateStr y m d).toList.length = 10 := rfl
  rw [h1, h2] at hlen
  exact absurd hlen (by decide)

/-- Witness for C1: epoch clamp up, latest-year clamp down, the `None`
default, year extraction from a full date string, and acceptance of a
4-digit year with a trailing newline, at concrete inputs. -/
theorem yearEnd_resolveYear_spec_witness :
    resolveYearImpl (esOf fun n => if n = "pop-songs" then some 2002 else none)
      2026 "pop-songs" (.str "1998") = .ok 2002 ∧
    resolveYearImpl (esOf fun _ => none) 2026 "hot-100-songs" (.int 2031) = .ok 2025 ∧
    resolveYearImpl (esOf fun _ => none) 2026 "hot-100-songs" .pyNone = .ok 2025 ∧
    resolveYearImpl (esOf fun _ => none) 2026 "c" (.str "2020-06-15") = .ok 2020 ∧
    resolveYearImpl (esOf fun _ => none) 2026 "c" (.str "2016\n") = .ok 2016 := by
  refine ⟨?_, ?_, ?_, ?_, ?_⟩
  · exact ((yearEnd_resolveYear_spec
      (fun n => if n = "pop-songs" then some 2002 else none) 2026 "pop-songs").2.1
      "1998" (by decide)).trans (by decide)
  · exact ((yearEnd_resolveYear_spec (fun _ => none) 2026 "hot-100-songs").2.2.2.2.1
      2031 (by decide) (by decide)).trans (by decide)
  · exact ((yearEnd_resolveYear_spec (fun _ => none) 2026 "hot-100-songs").1).trans
      (by decide)
  · exact ((yearEnd_resolveYear_spec (fun _ => none) 2026 "c").2.2.1
      2020 6 15 (by decide)).trans (by decide)
  · exact ((yearEnd_resolveYear_spec (fun _ => none) 2026 "c").2.1
      "2016\n" (by decide)).trans (by decide)

/-- C2 counterexample: `"2023-01-011"` does not have the (exact)
`YYYY-MM-DD` format of any real calendar date, yet `ChartData.__init__`
accepts it without error — the source regex only checks a prefix. -/
theorem weekly_validate_ctrex :
    validateWeeklyDate (some "2023-01-011") = .ok () ∧
    (∀ y m d : Nat, RealYMD y m d → "2023-01-011" ≠ pyDateStr y m d) := by
  constructor
  · decide
  · intro y m d _ hcon
    have hlen : ("2023-01-011" : String).toList.length =
        (pyDateStr y m d).toList.length := by rw [hcon]
    have h1 : ("2023-01-011" : String).toList.length = 11 := by decide
    have h2 : (pyDateStr y m d).toList.length = 10 := rfl
    rw [h1, h2] at hlen
    exact absurd hlen (by decide)

/-- C2 (amended): weekly date validation succeeds iff the string has a
`YYYY-MM-DD`-shaped *prefix* and its dash-separated components all parse as
Python ints forming a valid `datetime(*args)` call; on failure the error is
raised before the fetched document is consulted. -/
theorem weekly_validate_amended :
    ∀ s : String,
      (validateWeeklyDate (some s) = .ok () ↔
        ymdShapeFront s = true ∧
        ∃ args, (splitChar '-' s.toList).mapM pyIntL = some args ∧
          datetimeArgsValid args = true) ∧
      (∀ m, validateWeeklyDate (some s) = .error m →
        ∀ (name : String) (d1 d2 : Document),
          chartDataInitFetch name (some s) d1 = .error m ∧
          chartDataInitFetch name (some s) d1 = chartDataInitFetch name (some s) d2) := by
  intro s
  constructor
  · unfold validateWeeklyDate
    dsimp only
    cases hsf : ymdShapeFront s
    · rw [if_neg (by simp [hsf])]
      constructor
      · intro h; exact Except.noConfusion h
      · rintro ⟨h1, -⟩
        exact Bool.noConfusion h1
    · rw [if_pos rfl]
      cases hmp : (splitChar '-' s.toList).mapM pyIntL with
      | none =>
        constructor
        · intro h; exact Except.noConfusion h
        · rintro ⟨-, args, h2, -⟩
          exact Option.noConfusion h2
      | some args =>
        dsimp only
        cases hv : datetimeArgsValid args
        · rw [if_neg (by simp)]
          constructor
          · intro h; exact Except.noConfusion h
          · rintro ⟨-, args2, h2, h3⟩
            have ha : args = args2 := by injection h2
            rw [← ha, hv] at h3
            exact Bool.noConfusion h3
        · rw [if_pos rfl]
          constructor
          · intro _; exact ⟨rfl, args, rfl, hv⟩
          · intro _; rfl
  · intro m hm name d1 d2
    unfold chartDataInitFetch
    rw [hm]
    exact ⟨rfl, rfl⟩

/-- Witness for C2: a valid date is accepted; an impossible calendar date
is rejected with the same error for any fetched document. -/
theorem weekly_validate_amended_witness :
    validateWeeklyDate (some "2023-07-04") = .ok () ∧
    chartDataInitFetch "hot-100" (some "2023-02-30") docC10 =
      .error "Date argument is invalid" ∧
    chartDataInitFetch "hot-100" (some "2023-02-30") docC10 =
      chartDataInitFetch "hot-100" (some "2023-02-30") docNewEmpty := by
  refine ⟨?_, ?_, ?_⟩
  · exact (weekly_validate_amended "2023-07-04").1.mpr
      ⟨by decide, [2023, 7, 4], by decide, by decide⟩
  · exact ((weekly_validate_amended "2023-02-30").2 "Date argument is invalid"
      (by decide) "hot-100" docC10 docNewEmpty).1
  · exact ((weekly_validate_amended "2023-02-30").2 "Date argument is invalid"
      (by decide) "hot-100" docC10 docNewEmpty).2

/-- C3 counterexample: on a two-entry old-style page whose second entry has
no rank, the parse raises `"Failed to parse rank"` but the first entry
remains on the snapshot's `entries` list. -/
theorem oldStyle_partial_entries_ctrex :
    (parseOldStylePage stHot docC3).2 = some "Failed to parse rank" ∧
    (parseOldStylePage stHot docC3).1.entries ≠ [] := by
  exact ⟨by decide, by decide⟩

/-- C3 (amended): a failing entry aborts the loop with a `ParseError`
naming the offending field (no entry list is returned), but the entries
parsed before the failing one remain appended on the snapshot. -/
theorem entriesLoop_abort_retained {α : Type} (pf : α → Except String PyEntryObj)
    (xs : List α) (st : ChartState) :
    ((entriesLoop pf xs st).2 = none →
      (entriesLoop pf xs st).1.entries =
        st.entries ++ xs.filterMap (fun z => (pf z).toOption)) ∧
    (∀ m, (entriesLoop pf xs st).2 = some m →
      ∃ pre x post, xs = pre ++ x :: post ∧ pf x = .error m ∧
        (∀ z ∈ pre, (pf z).isOk = true) ∧
        (entriesLoop pf xs st).1.entries =
          st.entries ++ pre.filterMap (fun z => (pf z).toOption)) :=
  entriesLoop_spec pf xs st

/-- Witness for C3: the loop over the two concrete entries fails on the
second and retains exactly the first. -/
theorem entriesLoop_abort_retained_witness :
    ∃ pre x post,
      ([oldSoupA, oldSoupBadRank] : List OldEntrySoup) = pre ++ x :: post ∧
      (parseOldEntry false x).map PyEntryObj.weekly = .error "Failed to parse rank" ∧
      (∀ z ∈ pre, ((parseOldEntry false z).map PyEntryObj.weekly).isOk = true) ∧
      (entriesLoop (fun z => (parseOldEntry false z).map PyEntryObj.weekly)
          [oldSoupA, oldSoupBadRank] stHot).1.entries =
        stHot.entries ++ pre.filterMap
          (fun z => ((parseOldEntry false z).map PyEntryObj.weekly).toOption) :=
  (entriesLoop_abort_retained (fun z => (parseOldEntry false z).map PyEntryObj.weekly)
    [oldSoupA, oldSoupBadRank] stHot).2 "Failed to parse rank" (by decide)

/-- C10: when the fetched page has a parseable date element, `fetchEntries`
builds the URL from the caller-supplied date but overwrites the snapshot's
`date` with the page's date, reformatted as `YYYY-MM-DD`. -/
theorem fetch_overwrites_page_date :
    ∀ (st : ChartState) (doc : Document) (t : String) (y m d : Nat),
      (if doc.tables.isEmpty then doc.newDateElement else doc.oldDateElement) =
        some t →
      strptimeBD (trimS t) = some (y, m, d) →
      (fetchEntriesW st doc).1 = weeklyUrl st.name st.date ∧
      (fetchEntriesW st doc).2.1.date = some (fmtYMD y m d) := by
  intro st doc t y m d hde hbd
  refine ⟨rfl, ?_⟩
  unfold fetchEntriesW parsePage
  cases htab : doc.tables with
  | nil =>
    have hie : doc.tables.isEmpty = true := by rw [htab]; rfl
    rw [hie, if_pos rfl] at hde
    dsimp only
    simp only [List.isEmpty_nil]
    rw [if_pos trivial]
    unfold parseNewStylePage
    rw [hde]
    dsimp only
    rw [hbd]
    dsimp only
    rw [(parseNewStyleRest_pres _ _).2.2.1]
  | cons x xs =>
    have hie : doc.tables.isEmpty = false := by rw [htab]; rfl
    rw [hie, if_neg (by decide)] at hde
    dsimp only
    simp only [List.isEmpty_cons]
    rw [if_neg (by decide)]
    unfold parseOldStylePage
    rw [hde]
    dsimp only
    rw [hbd]
    dsimp only
    rw [(parseOldStyleRest_pres _ _).2.2]

/-- Witness for C10: fetching with no caller date on a page dated
"July 4, 2020" requests the undated URL but ends with `date = 2020-07-04`. -/
theorem fetch_overwrites_page_date_witness :
    (fetchEntriesW stHot docC10).1 = weeklyUrl stHot.name stHot.date ∧
    (fetchEntriesW stHot docC10).2.1.date = some (fmtYMD 2020 7 4) :=
  fetch_overwrites_page_date stHot docC10 "July 4, 2020" 2020 7 4 (by decide)
    (by decide)

/-- C8 counterexample: a year-end snapshot whose resolved year is 0 (an
unlisted chart name with caller date "0000" — accepted and unclamped by the
resolution, third conjunct) gets *no* `previousDate` from the fetch: the
source's `if prevYear:` truthiness check skips year 0, so `previousDate` is
not set unconditionally. -/
theorem yearEnd_prevDate_ctrex :
    (yearEndFetch 2026 stYE0 yeDocEmpty).2.1.previousDate = none ∧
    (yearEndFetch 2026 stYE0 yeDocEmpty).2.1.previousDate ≠
      some (toString ((0 : Int) - 1)) ∧
    resolveYearImpl (esOf fun _ => none) 2026 "some-unlisted-chart" (.str "0000") =
      .ok 0 := by
  exact ⟨by decide, by decide, by decide⟩

/-- C8 (amended): for a fetched year-end snapshot with resolved year `y`
(read back from `self.date`), when the page carries no date button and no
weekly-parse error occurred: `previousDate` is set to `str(y - 1)` whenever
`y ≠ 0` — with no lower bound tied to the chart's epoch year — and is left
unchanged when `y = 0`; `nextDate` is set to `str(y + 1)` unless `y = 0` or
`y` equals the latest available year (current year − 1). -/
theorem yearEnd_adjacency_amended :
    ∀ (nowYear : Nat) (st : ChartState) (doc : YEDoc) (ds : String) (y : Int),
      st.date = some ds → pyIntS ds = some y →
      doc.base.oldDateElement = none → doc.base.newDateElement = none →
      doc.base.tables = [] →
      (parsePage st doc.base).2 = none →
      ((y ≠ 0 → (yearEndFetch nowYear st doc).2.1.previousDate =
          some (toString (y - 1))) ∧
       (y = 0 → (yearEndFetch nowYear st doc).2.1.previousDate = st.previousDate) ∧
       (y ≠ 0 ∧ y ≠ (nowYear : Int) - 1 →
         (yearEndFetch nowYear st doc).2.1.nextDate = some (toString (y + 1))) ∧
       ((y = 0 ∨ y = (nowYear : Int) - 1) →
         (yearEndFetch nowYear st doc).2.1.nextDate = st.nextDate)) := by
  intro nowYear st doc ds y hds hpy hod hnd htab hok
  have hpres := parsePage_newEmpty_pres st doc.base htab hnd
  unfold yearEndFetch
  rcases hpp : parsePage st doc.base with ⟨st1, e1⟩
  rw [hpp] at hok hpres
  dsimp only at hok hpres
  subst hok
  rw [hod]
  dsimp only
  unfold yearEndTail
  rw [show st1.date = some ds from hpres.2.1.trans hds]
  dsimp only
  rw [show pyIntS ds = some y from hpy]
  dsimp only
  have hprev := fun st4 => (entriesLoop_pres parseYEItem doc.items st4).2.2.2.1
  have hnext := fun st4 => (entriesLoop_pres parseYEItem doc.items st4).2.2.2.2
  refine ⟨?_, ?_, ?_, ?_⟩ <;> intro hy
  · rw [hprev]; split_ifs <;> simp_all
  · rw [hprev]; split_ifs <;> simp_all
  · rw [hnext]; split_ifs <;> simp_all
  · rw [hnext]; split_ifs <;> simp_all

/-- Witness for C8: fetching the 2019 year-end chart (current year 2021)
sets `previousDate = "2018"` and `nextDate = "2020"`. -/
theorem yearEnd_adjacency_amended_witness :
    (yearEndFetch 2021 stYE2019 yeDocEmpty).2.1.previousDate = some "2018" ∧
    (yearEndFetch 2021 stYE2019 yeDocEmpty).2.1.nextDate = some "2020" := by
  have h := yearEnd_adjacency_amended 2021 stYE2019 yeDocEmpty "2019" 2019 rfl
    (by decide) rfl rfl rfl (by decide)
  exact ⟨(h.1 (by decide)).trans (by decide),
    (h.2.2.1 ⟨by decide, by decide⟩).trans (by decide)⟩
